import Mathlib

/-!
# Shallow embedding of the Intel OMF reader (`src/read/omf`)

This file embeds the record-stream parser `OmfFile::parse` from
`src/read/omf/mod.rs`, the record-type constants from
`src/read/omf/consts.rs`, and the section model from
`src/read/omf/section.rs`.

Conventions of the embedding:

* A byte buffer is a `List Nat` whose elements are byte values.
* Rust's panicking slice/index operations (`bytes[i]`, `&bytes[a..b]`) are
  modelled by `Option`-returning reads; an out-of-bounds access maps to the
  distinguished outcome `PResult.panicked`, while `Err(..)` returns map to
  `PResult.error ..`.
* Rust `match` arms with overlapping constant patterns take the first
  matching arm; the dispatcher below is an `if`-chain in the source's arm
  order, so the shadowing of `LEDATA` (0xA0) by `LEXTDEF` (0xA0), of
  `NBKPAT` (0xA6) by `LPUBDEF` (0xA6) and of `LGRPDEF` (0xA2) by `LIDATA`
  (0xA2) is preserved exactly.
* `Nat` subtraction is saturating, which matches Rust's
  `usize::saturating_sub` used by the source.
* `OmfSegment.data` is declared `&'data [u8]` in `mod.rs` but is assigned
  `OmfSectionData` values by the LEDATA/LIDATA/COMDAT arms and is consumed
  as `OmfSectionData` by `section.rs`; the embedding reconciles this by
  giving the field type `OmfSectionData`, with the initial empty slice
  `&[]` rendered as `.Ledata 0 []`.  The field name `encoded` written by
  the LEDATA arm does not exist on the `Lidata` variant; it is reconciled
  to the variant's actual field `raw`.
-/

set_option maxRecDepth 20000

/-- Little-endian 16-bit value of two bytes (`u16::from_le_bytes`). -/
def u16le (a b : Nat) : Nat := a + 256 * b

/-- Little-endian 32-bit value of four bytes (`u32::from_le_bytes`). -/
def u32le (a b c d : Nat) : Nat := a + 256 * (b + 256 * (c + 256 * d))

/-! ## Record-type constants, from `src/read/omf/consts.rs` (values as in the
source; several of them collide: LEXTDEF = LEDATA = 0xA0, LIDATA = LGRPDEF =
0xA2, LPUBDEF = NBKPAT = 0xA6).  `consts.rs` defines no LSEGDEF constant even
though `mod.rs` has an `LSEGDEF => {}` arm; that arm has no resolvable opcode
and is omitted. -/

def COMENT : Nat := 0x88
def EXTDEF : Nat := 0x8C
def LEXTDEF : Nat := 0xA0
def LNAMES : Nat := 0x96
def SEGDEF : Nat := 0x98
def SEGDEF32 : Nat := 0x99
def GRPDEF : Nat := 0x9A
def LGRPDEF : Nat := 0xA2
def PUBDEF : Nat := 0x90
def LPUBDEF : Nat := 0xA6
def LEDATA : Nat := 0xA0
def LLEDATA : Nat := 0xA8
def FIXUPP : Nat := 0x9C
def COMDEF : Nat := 0xB0
def LCOMDEF : Nat := 0xB2
def COMDAT : Nat := 0xC2
def MODEND : Nat := 0x8A
def MODEND32 : Nat := 0x8B
def LIDATA : Nat := 0xA2
def LLIDATA : Nat := 0xA9
def BAKPAT : Nat := 0xA4
def NBKPAT : Nat := 0xA6
def LIBHDR : Nat := 0xF0
def LIBDIR : Nat := 0xF1
def RIDATA : Nat := 0xF2
def LIDRNAME : Nat := 0xFC
def LIDRTYP : Nat := 0xFD
def LIDRVAL : Nat := 0xFE
def THEADR : Nat := 0x80

/-! ## Data model, from `src/read/omf/mod.rs` and `src/read/omf/section.rs` -/

/-- `OmfFixupTarget`, from `section.rs`.  Note: there is no `External`
constructor in the source. -/
inductive OmfFixupTarget
  | Segment (i : Nat)
  | Group (i : Nat)
  | Symbol (i : Nat)
deriving DecidableEq

/-- `OmfFixupFrame`, from `section.rs`. -/
inductive OmfFixupFrame
  | Segment (i : Nat)
  | Group (i : Nat)
  | Symbol (i : Nat)
  | Location
deriving DecidableEq

/-- The relocation kinds the OMF parser actually constructs (the full
`RelocationKind` lives in the generic `read` module outside `src/`; only
`Absolute` is used by the OMF code). -/
inductive RelocationKind
  | Absolute
deriving DecidableEq

/-- The relocation encodings the OMF parser actually constructs. -/
inductive RelocationEncoding
  | Generic
deriving DecidableEq

/-- `OmfRelocation`, from `section.rs`. -/
structure OmfRelocation where
  offset : Nat
  target : OmfFixupTarget
  frame : Option OmfFixupFrame
  kind : RelocationKind
  encoding : RelocationEncoding
  size : Nat
  addend : Int
deriving DecidableEq

/-- `OmfSectionData`, from `section.rs`. -/
inductive OmfSectionData
  | Ledata (offset : Nat) (data : List Nat)
  | Comdat (offset : Nat) (data : List Nat)
  | Lidata (offset : Nat) (raw : List Nat)
deriving DecidableEq

/-- The `SectionFlags` values used by the OMF parser (the full type lives in
the generic `read` module). -/
inductive SectionFlags
  | NONE
  | EXECUTABLE
  | COMDAT
deriving DecidableEq

/-- Internal segment accumulator `OmfSegment`, from `mod.rs` (see the module
docstring for the reconciliation of the `data` field's type). -/
structure OmfSegment where
  name : List Nat
  data : OmfSectionData
  flags : SectionFlags
  fixups : List OmfRelocation
deriving DecidableEq

/-- The symbol record as constructed by `OmfFile::parse` in `mod.rs`
(fields `name`, `segment`, `offset`, `global`, `is_comdat`). -/
structure OmfSymbol where
  name : List Nat
  segment : Option Nat
  offset : Nat
  global : Bool
  is_comdat : Bool
deriving DecidableEq

/-- `OmfGroup`, from `mod.rs`. -/
structure OmfGroup where
  name : List Nat
  segment_indices : List Nat
deriving DecidableEq

/-- `OmfComdat`, from `mod.rs` (the `data` field is written both from a
segment's data and from an inline `OmfSectionData::Comdat`, so its type is
reconciled to `Option OmfSectionData`). -/
structure OmfComdat where
  name : List Nat
  selection : Nat
  segment_index : Nat
  offset : Nat
  segment_name : Option (List Nat)
  data : Option OmfSectionData
deriving DecidableEq

/-- `OmfCommon`, from `mod.rs`. -/
structure OmfCommon where
  name : List Nat
  elem_size : Nat
  elem_count : Nat
  is_far : Bool
  is_32bit : Bool
deriving DecidableEq

/-- `OmfCommentKind`, from `comment.rs` (the variant actually pushed by the
COMENT arm of `parse`). -/
inductive OmfCommentKind
  | CompilerInfo
  | Copyright
  | LinkerInfo
  | Other (c : Nat)
deriving DecidableEq

/-- `OmfComment`, from `comment.rs` (the struct produced by
`comment::parse_comment`, which is what the COMENT arm pushes). -/
structure OmfComment where
  kind : OmfCommentKind
  data : List Nat
deriving DecidableEq

/-- The parse result `OmfFile`, from `mod.rs`, without the borrowed `data`
buffer handle. -/
structure OmfFile where
  module_name : Option (List Nat)
  lnames : List (List Nat)
  segments : List OmfSegment
  symbols : List OmfSymbol
  groups : List OmfGroup
  comdats : List OmfComdat
  commons : List OmfCommon
  comments : List OmfComment
deriving DecidableEq

/-- The error values `parse` can return: `Error("unknown OMF record")` from
the catch-all arm, or an error propagated with `?` from
`read::parse_string`. -/
inductive OmfParseError
  | unknownRecord
  | stringError
deriving DecidableEq

/-- Outcome of running a fallible, possibly panicking piece of the parser:
`ok`, a returned `Err(..)`, or a Rust panic (out-of-bounds index/slice). -/
inductive PResult (α : Type)
  | ok (a : α)
  | error (e : OmfParseError)
  | panicked
deriving DecidableEq

/-! ## Primitive decoders -/

/-- `read::parse_string` is not under `src/` (it lives in the parent `read`
module).  Modelled from the spec: a length-prefixed name is
`[len:u8][bytes:len]`, empty names are permitted (§4.B); a body shorter than
the declared length is a read error, propagated by `?` in the caller. -/
def parse_string (b : List Nat) : Option (List Nat) :=
  match b with
  | [] => none
  | n :: rest => if rest.length < n then none else some (rest.take n)

/-- The name-index resolution used throughout `parse`:
`lnames.get(idx.saturating_sub(1)).copied().unwrap_or("")`. -/
def resolveName (lnames : List (List Nat)) (idx : Nat) : List Nat :=
  (lnames[idx - 1]?).getD []

/-- Modelled from the spec: the OMF variable index (§4.B) — first byte with
high bit clear is the index itself (one byte consumed); otherwise the index
is `((first &&& 0x7F) <<< 8) ||| second` (two bytes consumed).  Stated here
for comparison with the single-byte reads the source performs. -/
def omfVarIndex : List Nat → Option (Nat × Nat)
  | [] => none
  | b :: rest =>
    if b &&& 0x80 == 0 then some (b, 1)
    else
      match rest with
      | [] => none
      | b2 :: _ => some (((b &&& 0x7F) <<< 8) ||| b2, 2)

/-! ## Record handlers (the arms of the `match rec` in `OmfFile::parse`) -/

/-- Empty accumulator state at the start of `parse`. -/
def initOmf : OmfFile := ⟨none, [], [], [], [], [], [], []⟩

/-- THEADR arm (`mod.rs` 169-171): `module_name = Some(read::parse_string(body)?)`. -/
def theadrApply (body : List Nat) (st : OmfFile) : PResult OmfFile :=
  match parse_string body with
  | some s => .ok { st with module_name := some s }
  | none => .error .stringError

/-- The LNAMES loop (`mod.rs` 176-183): consume length-prefixed strings while
`p < body.len()`, advancing by `1 + s.len()`. -/
def lnamesLoop (fuel : Nat) (body : List Nat) (p : Nat)
    (acc : List (List Nat)) : Option (List (List Nat)) :=
  match fuel with
  | 0 => none
  | fuel + 1 =>
    if p < body.length then
      match parse_string (body.drop p) with
      | some s => lnamesLoop fuel body (p + 1 + s.length) (acc ++ [s])
      | none => none
    else some acc

/-- LNAMES arm. -/
def lnamesApply (body : List Nat) (st : OmfFile) : PResult OmfFile :=
  match lnamesLoop (body.length + 1) body 0 st.lnames with
  | some ls => .ok { st with lnames := ls }
  | none => .error .stringError

/-- SEGDEF | SEGDEF32 arm (`mod.rs` 190-208).  Reads the attribute byte,
the declared length (which the source then discards) and a one-byte name
index; pushes a segment with empty data.  Indexing past the body panics. -/
def segdefApply (rty : Nat) (body : List Nat) (st : OmfFile) : PResult OmfFile :=
  match body[0]? with
  | none => .panicked
  | some attr =>
    let is_code := attr &&& 0x01 == 0
    let is_32bit := rty &&& 1 == 1
    let fields : PResult (Nat × Nat) :=
      if is_32bit then
        match body[1]?, body[2]?, body[3]?, body[4]?, body[5]? with
        | some a, some b, some c, some d, some ni => .ok (u32le a b c d, ni)
        | _, _, _, _, _ => .panicked
      else
        match body[1]?, body[2]?, body[3]? with
        | some a, some b, some ni => .ok (u16le a b, ni)
        | _, _, _ => .panicked
    match fields with
    | .ok (_seg_len, name_idx) =>
      let name := resolveName st.lnames name_idx
      let flags := if is_code then SectionFlags.EXECUTABLE else SectionFlags.NONE
      .ok { st with segments := st.segments ++ [⟨name, .Ledata 0 [], flags, []⟩] }
    | .error e => .error e
    | .panicked => .panicked

/-- The PUBDEF loop (`mod.rs` 213-230): while `p + 2 < body.len()`, read a
one-byte name index, a one-byte segment index and a u16 offset (the second
offset byte `body[p+3]` can be out of bounds — a panic). -/
def pubdefLoop (fuel : Nat) (body : List Nat) (lnames : List (List Nat))
    (p : Nat) (acc : List OmfSymbol) : PResult (List OmfSymbol) :=
  match fuel with
  | 0 => .panicked
  | fuel + 1 =>
    if p + 2 < body.length then
      match body[p]?, body[p + 1]?, body[p + 2]?, body[p + 3]? with
      | some ni, some seg, some o1, some o2 =>
        pubdefLoop fuel body lnames (p + 4)
          (acc ++ [⟨resolveName lnames ni, some seg, u16le o1 o2, true, false⟩])
      | _, _, _, _ => .panicked
    else .ok acc

/-- PUBDEF arm. -/
def pubdefApply (body : List Nat) (st : OmfFile) : PResult OmfFile :=
  match pubdefLoop (body.length + 1) body st.lnames 0 [] with
  | .ok syms => .ok { st with symbols := st.symbols ++ syms }
  | .error e => .error e
  | .panicked => .panicked

/-- The LPUBDEF loop (`mod.rs` 234-252): while `p + 4 < body.len()`, read a
one-byte name index, a u16 segment index (stored `as u8`, i.e. mod 256) and
a u32 offset; the last offset bytes can be out of bounds. -/
def lpubdefLoop (fuel : Nat) (body : List Nat) (lnames : List (List Nat))
    (p : Nat) (acc : List OmfSymbol) : PResult (List OmfSymbol) :=
  match fuel with
  | 0 => .panicked
  | fuel + 1 =>
    if p + 4 < body.length then
      match body[p]?, body[p + 1]?, body[p + 2]?, body[p + 3]?, body[p + 4]?,
            body[p + 5]?, body[p + 6]? with
      | some ni, some s1, some s2, some o1, some o2, some o3, some o4 =>
        lpubdefLoop fuel body lnames (p + 7)
          (acc ++ [⟨resolveName lnames ni, some (u16le s1 s2 % 256),
                    u32le o1 o2 o3 o4, true, false⟩])
      | _, _, _, _, _, _, _ => .panicked
    else .ok acc

/-- LPUBDEF arm. -/
def lpubdefApply (body : List Nat) (st : OmfFile) : PResult OmfFile :=
  match lpubdefLoop (body.length + 1) body st.lnames 0 [] with
  | .ok syms => .ok { st with symbols := st.symbols ++ syms }
  | .error e => .error e
  | .panicked => .panicked

/-- The EXTDEF | LEXTDEF loop (`mod.rs` 256-270): every single body byte is
read as a one-byte name index and yields one undefined symbol. -/
def extdefLoop (fuel : Nat) (body : List Nat) (lnames : List (List Nat))
    (p : Nat) (acc : List OmfSymbol) : List OmfSymbol :=
  match fuel with
  | 0 => acc
  | fuel + 1 =>
    if p < body.length then
      extdefLoop fuel body lnames (p + 1)
        (acc ++ [⟨resolveName lnames (body.getD p 0), none, 0, true, false⟩])
    else acc

/-- EXTDEF | LEXTDEF arm.  (The second, standalone `LEXTDEF` arm in the
source at `mod.rs` 275-299 is an unreachable duplicate pattern.) -/
def extdefApply (body : List Nat) (st : OmfFile) : PResult OmfFile :=
  .ok { st with symbols := st.symbols ++ extdefLoop (body.length + 1) body st.lnames 0 [] }

/-- The FIXUPP subrecord walk (`mod.rs` 313-350): bytes with the high bit
clear are thread subrecords and are skipped; otherwise the location size is
`(typ >> 5) & 0b11` (0 → 8, 1 → 16, 2 → 32, _ → 16), a u16 location offset
and a one-byte target follow (possibly panicking), one displacement byte is
skipped when `typ & 0x04 != 0`, and a relocation with target
`Segment(tgt)`, frame `Location`, kind `Absolute` is produced. -/
def fixuppLoop (fuel : Nat) (body : List Nat) (p : Nat)
    (acc : List OmfRelocation) : PResult (List OmfRelocation) :=
  match fuel with
  | 0 => .panicked
  | fuel + 1 =>
    if p < body.length then
      let typ := body.getD p 0
      if typ &&& 0x80 == 0 then
        fixuppLoop fuel body (p + 1) acc
      else
        let loc_size : Nat :=
          match (typ >>> 5) &&& 0b11 with
          | 0 => 8
          | 1 => 16
          | 2 => 32
          | _ => 16
        match body[p + 1]?, body[p + 2]? with
        | some a, some b =>
          match body[p + 3]? with
          | some tgt =>
            let q := if typ &&& 0x04 != 0 then p + 5 else p + 4
            fixuppLoop fuel body q
              (acc ++ [⟨u16le a b, .Segment tgt, some .Location,
                        .Absolute, .Generic, loc_size, 0⟩])
          | none => .panicked
        | _, _ => .panicked
    else .ok acc

/-- Append relocations to the last segment
(`if let Some(seg) = segments.last_mut()`); with no segment the fixups are
dropped. -/
def appendFixupsToLast : List OmfSegment → List OmfRelocation → List OmfSegment
  | [], _ => []
  | [s], rs => [{ s with fixups := s.fixups ++ rs }]
  | s :: s2 :: rest, rs => s :: appendFixupsToLast (s2 :: rest) rs

/-- FIXUPP arm on the segments accumulator. -/
def fixuppApply (body : List Nat) (segs : List OmfSegment) :
    PResult (List OmfSegment) :=
  match fixuppLoop (body.length + 1) body 0 [] with
  | .ok rs => .ok (appendFixupsToLast segs rs)
  | .error e => .error e
  | .panicked => .panicked

/-- FIXUPP arm on the whole state. -/
def fixuppApplySt (body : List Nat) (st : OmfFile) : PResult OmfFile :=
  match fixuppApply body st.segments with
  | .ok segs => .ok { st with segments := segs }
  | .error e => .error e
  | .panicked => .panicked

/-- The GRPDEF pair loop (`mod.rs` 365-377): read `(kind, index)` byte pairs
(the index via `body.get(i).copied().unwrap_or(0)`), keeping the index only
when `kind == 0x02`. -/
def grpdefPairs (fuel : Nat) (body : List Nat) (i : Nat)
    (acc : List Nat) : List Nat :=
  match fuel with
  | 0 => acc
  | fuel + 1 =>
    if i < body.length then
      let kind := body.getD i 0
      let index := body.getD (i + 1) 0
      grpdefPairs fuel body (i + 2) (if kind == 2 then acc ++ [index] else acc)
    else acc

/-- GRPDEF arm (`mod.rs` 357-387): empty bodies are skipped; the group name
is looked up with `lnames.get(group_name_index)` (0-based, no
`saturating_sub`), and when the lookup fails the whole group is silently
dropped. -/
def grpdefApply (body : List Nat) (st : OmfFile) : PResult OmfFile :=
  if body.isEmpty then .ok st
  else
    let group_name_index := body.headD 0
    let segment_indices := grpdefPairs (body.length + 1) body 1 []
    match st.lnames[group_name_index]? with
    | some name => .ok { st with groups := st.groups ++ [⟨name, segment_indices⟩] }
    | none => .ok st

/-- COMDEF arm (`mod.rs` 390-426): one-byte name index, one-byte type
(`is_far` from bit 1), then elem size and elem count as u16 (or u32 for the
odd record type); short bodies panic. -/
def comdefApply (rty : Nat) (body : List Nat) (st : OmfFile) : PResult OmfFile :=
  match body[0]?, body[1]? with
  | some name_idx, some typ =>
    let is_far := typ &&& 0x02 != 0
    let is_32bit := rty &&& 1 == 1
    if is_32bit then
      match body[2]?, body[3]?, body[4]?, body[5]?, body[6]?, body[7]?,
            body[8]?, body[9]? with
      | some a, some b, some c, some d, some e, some f, some g, some h =>
        .ok { st with commons := st.commons ++
          [⟨resolveName st.lnames name_idx, u32le a b c d, u32le e f g h,
            is_far, is_32bit⟩] }
      | _, _, _, _, _, _, _, _ => .panicked
    else
      match body[2]?, body[3]?, body[4]?, body[5]? with
      | some a, some b, some c, some d =>
        .ok { st with commons := st.commons ++
          [⟨resolveName st.lnames name_idx, u16le a b, u16le c d,
            is_far, is_32bit⟩] }
      | _, _, _, _ => .panicked
  | _, _ => .panicked

/-- COMDAT arm (`mod.rs` 437-524).  Bodies shorter than 3 bytes are skipped;
an attribute byte is assumed present only when the second byte is ≥ 0xF0;
remaining fields are read with `unwrap_or(0)`.  When the segment index does
not resolve and enough bytes remain, a synthetic segment holding the inline
data is pushed. -/
def comdatApply (rty : Nat) (body : List Nat) (st : OmfFile) : PResult OmfFile :=
  if body.length < 3 then .ok st
  else
    let is_32bit := rty &&& 1 == 1
    let selection := body.getD 0 0
    let aon := body.getD 1 0
    let pair : Nat × Nat := if 0xF0 ≤ aon then (body.getD 2 0, 3) else (aon, 2)
    let name_idx := pair.1
    let p := pair.2
    let name := resolveName st.lnames name_idx
    let segment_index := body.getD p 0
    let p := p + 1
    let offset :=
      if is_32bit then
        u32le (body.getD p 0) (body.getD (p + 1) 0) (body.getD (p + 2) 0)
          (body.getD (p + 3) 0)
      else u16le (body.getD p 0) (body.getD (p + 1) 0)
    let p := p + (if is_32bit then 4 else 2)
    let seg_idx := segment_index - 1
    match st.segments[seg_idx]? with
    | some seg =>
      .ok { st with comdats := st.comdats ++
        [⟨name, selection, segment_index, offset, some seg.name, some seg.data⟩] }
    | none =>
      if p + 2 < body.length then
        let data_body := body.drop p
        .ok { st with
          segments := st.segments ++ [⟨name, .Comdat offset data_body, .NONE, []⟩],
          comdats := st.comdats ++
            [⟨name, selection, segment_index, offset, some name,
              some (.Comdat offset data_body)⟩] }
      else
        .ok { st with comdats := st.comdats ++
          [⟨name, selection, segment_index, offset, none, none⟩] }

/-- `is_known_subtyped_class`, from `comment.rs`. -/
def is_known_subtyped_class (subtype : Nat) : Bool :=
  subtype == 0x00 || subtype == 0x01 || subtype == 0x02 || subtype == 0x03 ||
  subtype == 0x9A || subtype == 0x9B || subtype == 0x9C

/-- `comment::parse_comment`, from `comment.rs`. -/
def parse_comment (body : List Nat) : Option OmfComment :=
  if body.length < 2 then none
  else
    let cls := body.getD 0 0
    let subtype := body.getD 1 0
    let data := body.drop 2
    let kind :=
      if cls == 0x00 then OmfCommentKind.CompilerInfo
      else if cls == 0x01 then OmfCommentKind.Copyright
      else if cls == 0x9A && is_known_subtyped_class subtype then
        OmfCommentKind.LinkerInfo
      else OmfCommentKind.Other cls
    some ⟨kind, data⟩

/-- COMENT arm (`mod.rs` 540-544). -/
def comentApply (body : List Nat) (st : OmfFile) : PResult OmfFile :=
  match parse_comment body with
  | some c => .ok { st with comments := st.comments ++ [c] }
  | none => .ok st

/-- Replace the data of the last segment (`segments.last_mut()`). -/
def setLastSegData : List OmfSegment → OmfSectionData → List OmfSegment
  | [], _ => []
  | [s], d => [{ s with data := d }]
  | s :: s2 :: rest, d => s :: setLastSegData (s2 :: rest) d

/-- LIDATA | LLIDATA arm (`mod.rs` 563-575): bodies shorter than 3 bytes are
skipped; otherwise a u16 offset is read and the remaining bytes (including
the trailing checksum byte) are stored unexpanded on the last segment. -/
def lidataApply (body : List Nat) (st : OmfFile) : PResult OmfFile :=
  if body.length < 3 then .ok st
  else
    let offset := u16le (body.getD 0 0) (body.getD 1 0)
    let raw := body.drop 2
    .ok { st with segments := setLastSegData st.segments (.Lidata offset raw) }

/-- Replace the data of the segment at an index
(`segments.get_mut(seg_idx)`): out-of-range indices change nothing. -/
def setSegDataAt : List OmfSegment → Nat → OmfSectionData → List OmfSegment
  | [], _, _ => []
  | s :: rest, 0, d => { s with data := d } :: rest
  | s :: rest, n + 1, d => s :: setSegDataAt rest n d

/-- LEDATA | LLEDATA arm (`mod.rs` 594-624).  `is_32bit` compares `rec`
against `LLIDATA` (0xA9) — kept as in the source; the segment index is
`unwrap_or(0)` minus one (saturating); `&body[p..]` panics when the body is
shorter than `p`; the data is stored as an `Lidata` value (the source writes
a nonexistent `encoded` field on the `Lidata` variant, reconciled to
`raw`). -/
def ledataApply (rty : Nat) (body : List Nat) (st : OmfFile) : PResult OmfFile :=
  let is_32bit := rty == LLIDATA
  let seg_idx := (body.getD 0 0) - 1
  let offset :=
    if is_32bit then
      u32le (body.getD 1 0) (body.getD 2 0) (body.getD 3 0) (body.getD 4 0)
    else u16le (body.getD 1 0) (body.getD 2 0)
  let p := if is_32bit then 5 else 3
  if body.length < p then .panicked
  else
    let data_body := body.drop p
    .ok { st with segments := setSegDataAt st.segments seg_idx (.Lidata offset data_body) }

/-- The record dispatcher: the `match rec` of `OmfFile::parse`, written as an
`if`-chain in the source's arm order so that duplicate opcode constants
resolve to the first (reachable) arm exactly as in Rust. -/
def dispatch (rty : Nat) (body : List Nat) (st : OmfFile) : PResult OmfFile :=
  if rty == THEADR then theadrApply body st
  else if rty == LNAMES then lnamesApply body st
  else if rty == SEGDEF || rty == SEGDEF32 then segdefApply rty body st
  else if rty == PUBDEF then pubdefApply body st
  else if rty == LPUBDEF then lpubdefApply body st
  else if rty == EXTDEF || rty == LEXTDEF then extdefApply body st
  else if rty == FIXUPP then fixuppApplySt body st
  else if rty == GRPDEF then grpdefApply body st
  else if rty == COMDEF then comdefApply rty body st
  else if rty == COMDAT then comdatApply rty body st
  else if rty == MODEND then .ok st
  else if rty == MODEND32 then .ok st
  else if rty == COMENT then comentApply body st
  else if rty == BAKPAT then .ok st
  else if rty == NBKPAT then .ok st
  else if rty == LIBHDR then .ok st
  else if rty == LIBDIR then .ok st
  else if rty == RIDATA then .ok st
  else if rty == LIDATA || rty == LLIDATA then lidataApply body st
  else if rty == LEDATA || rty == LLEDATA then ledataApply rty body st
  else if rty == LCOMDEF then .ok st
  else if rty == LGRPDEF then .ok st
  else if rty == LIDRNAME then .ok st
  else if rty == LIDRTYP then .ok st
  else if rty == LIDRVAL then .ok st
  else .error .unknownRecord

/-- The record framing loop of `OmfFile::parse` (`mod.rs` 157-162): while
`pos + 3 <= bytes.len()`, read the type byte and the little-endian length,
slice `&bytes[pos+3 .. pos+3+len]` (a panic when the declared length extends
past the buffer end — there is no bounds check), dispatch, and advance by
`3 + len`.  The fuel `bytes.length + 1` never runs out because each
iteration advances `pos` by at least 3. -/
def parseLoop (bytes : List Nat) : Nat → Nat → OmfFile → PResult OmfFile
  | 0, _, _ => .panicked
  | fuel + 1, pos, st =>
    if pos + 3 ≤ bytes.length then
      let rty := bytes.getD pos 0
      let len := u16le (bytes.getD (pos + 1) 0) (bytes.getD (pos + 2) 0)
      if bytes.length < pos + 3 + len then .panicked
      else
        match dispatch rty ((bytes.drop (pos + 3)).take len) st with
        | .ok st2 => parseLoop bytes fuel (pos + 3 + len) st2
        | .error e => .error e
        | .panicked => .panicked
    else .ok st

/-- `OmfFile::parse`. -/
def OmfFile.parse (bytes : List Nat) : PResult OmfFile :=
  parseLoop bytes (bytes.length + 1) 0 initOmf

/-! ## Sections, from `src/read/omf/section.rs` -/

/-- `OmfSection`, from `section.rs`. -/
structure OmfSection where
  index : Nat
  name : List Nat
  data : OmfSectionData
  flags : SectionFlags
  relocs : List OmfRelocation
deriving DecidableEq

/-- `OmfSection::size` (`section.rs` 128-134): LIDATA data counts as 0
("unknown until expanded"). -/
def OmfSection.size (s : OmfSection) : Nat :=
  match s.data with
  | .Ledata _ d => d.length
  | .Comdat _ d => d.length
  | .Lidata _ _ => 0

/-- `OmfFile::sections` (`mod.rs` 663-670): one `OmfSection` per parsed
segment, in order.  (The trailing COMDAT block of that function in the
source is unreachable dead text after the returned iterator expression and
is omitted.) -/
def sectionsOf (f : OmfFile) : List OmfSection :=
  (List.range f.segments.length).zip f.segments |>.map
    (fun p => ⟨p.1, p.2.name, p.2.data, p.2.flags, p.2.fixups⟩)

/-- Modelled from the spec: the pre-expansion declared size of an OMF
iterated data block (§4.E) — `[repeat-count:u16][block-count:u16][body]`,
where block-count 0 means the body is literal bytes with a one-byte length
prefix, and otherwise the body holds block-count nested iterated blocks.
`k` counts the blocks still to decode at the current level; the fuel bounds
the recursion (the spec bounds nesting depth by 16).  Returns the expanded
size and the bytes consumed. -/
def lidataBlockSizeAux : Nat → Nat → List Nat → Option (Nat × Nat)
  | 0, _, _ => none
  | fuel + 1, k, b =>
    if k == 0 then some (0, 0)
    else
      match b with
      | r0 :: r1 :: c0 :: c1 :: rest =>
        let rep := u16le r0 r1
        let cnt := u16le c0 c1
        let first : Option (Nat × Nat) :=
          if cnt == 0 then
            match rest with
            | n :: rest2 => if n ≤ rest2.length then some (rep * n, 5 + n) else none
            | [] => none
          else
            match lidataBlockSizeAux fuel cnt rest with
            | some (sz, used) => some (rep * sz, 4 + used)
            | none => none
        match first with
        | some (sz, used) =>
          match lidataBlockSizeAux fuel (k - 1) (b.drop used) with
          | some (sz2, used2) => some (sz + sz2, used + used2)
          | none => none
        | none => none
      | _ => none

/-- Modelled from the spec: the pre-expansion declared size of the first
iterated block of a LIDATA payload (§4.E). -/
def lidataDeclaredSize (b : List Nat) : Option Nat :=
  match lidataBlockSizeAux 17 1 b with
  | some (sz, _) => some sz
  | none => none

/-! ## Concrete record streams used by the theorems -/

/-- `LNAMES("_TEXT", "CODE")` with zero checksum, framed. -/
def lnamesRec : List Nat :=
  [0x96, 0x0C, 0x00, 0x05, 0x5F, 0x54, 0x45, 0x58, 0x54, 0x04, 0x43, 0x4F, 0x44, 0x45, 0x00]

/-- 16-bit SEGDEF: attributes 0x48, declared length 3, name index 1, class
index 2, overlay index 0, zero checksum, framed. -/
def segdefRec : List Nat :=
  [0x98, 0x07, 0x00, 0x48, 0x03, 0x00, 0x01, 0x02, 0x00, 0x00]

/-- LEDATA (opcode 0xA0): segment index 1, offset 0, bytes `90 90 C3`, zero
checksum, framed. -/
def ledataRec : List Nat :=
  [0xA0, 0x07, 0x00, 0x01, 0x00, 0x00, 0x90, 0x90, 0xC3, 0x00]

/-- MODEND with no start address, zero checksum, framed. -/
def modendRec : List Nat := [0x8A, 0x01, 0x00, 0x00]

/-- The name `_TEXT` as bytes. -/
def tTEXT : List Nat := [0x5F, 0x54, 0x45, 0x58, 0x54]

/-- The name `CODE` as bytes. -/
def tCODE : List Nat := [0x43, 0x4F, 0x44, 0x45]

/-- The name `puts` as bytes. -/
def tPUTS : List Nat := [0x70, 0x75, 0x74, 0x73]

/-- A ten-byte buffer starting with the record header `80 FF FF`: a THEADR
record declaring length 65535. -/
def c1input : List Nat := [0x80, 0xFF, 0xFF, 0, 0, 0, 0, 0, 0, 0]

/-- The spec's scenario 2 stream: LNAMES, SEGDEF, LEDATA, MODEND. -/
def c2input : List Nat := lnamesRec ++ segdefRec ++ ledataRec ++ modendRec

/-- What the code actually produces for `c2input`: the segment keeps its
initial empty data, and the LEDATA record body (segment index, offset,
data bytes and checksum — seven bytes) is consumed by the EXTDEF | LEXTDEF
arm as seven one-byte name indices, yielding seven spurious undefined
symbols. -/
def c2expected : OmfFile :=
  { module_name := none,
    lnames := [tTEXT, tCODE, []],
    segments := [⟨tTEXT, .Ledata 0 [], .EXECUTABLE, []⟩],
    symbols := [⟨tTEXT, none, 0, true, false⟩, ⟨tTEXT, none, 0, true, false⟩,
                ⟨tTEXT, none, 0, true, false⟩, ⟨[], none, 0, true, false⟩,
                ⟨[], none, 0, true, false⟩, ⟨[], none, 0, true, false⟩,
                ⟨tTEXT, none, 0, true, false⟩],
    groups := [], comdats := [], commons := [], comments := [] }

/-- An LNAMES record holding the single name "A" plus the zero checksum
byte: `96 03 00 01 41 00`. -/
def c3input : List Nat := [0x96, 0x03, 0x00, 0x01, 0x41, 0x00]

/-- An LNAMES record introducing 129 one-byte names `[0] … [128]`, followed
by a SEGDEF whose segment-name index field is the two bytes `81 02` — a
variable index with the high bit set, denoting index 258. -/
def c4input : List Nat :=
  [0x96, 0x03, 0x01] ++ (((List.range 129).map (fun i => [1, i])).flatten) ++ [0x00] ++
  [0x98, 0x07, 0x00, 0x48, 0x00, 0x00, 0x81, 0x02, 0x00, 0x00]

/-- What the code produces for `c4input`: the LNAMES checksum byte becomes a
130th (empty) name, and the SEGDEF name index is read as the single byte
0x81 = 129, resolving to the name `[128]`. -/
def c4expected : OmfFile :=
  { module_name := none,
    lnames := (List.range 129).map (fun i => [i]) ++ [[]],
    segments := [⟨[128], .Ledata 0 [], .EXECUTABLE, []⟩],
    symbols := [], groups := [], comdats := [], commons := [], comments := [] }

/-- A MODEND record followed by four trailing bytes that, read as a record,
have the unknown type byte 0x00. -/
def c5input : List Nat := [0x8A, 0x01, 0x00, 0x00, 0x00, 0x01, 0x00, 0xFF]

/-- PUBDEF per the wire format of the spec: group index 0, segment index 1,
length-prefixed name "main", u16 offset 0, type index 0, zero checksum. -/
def pubdefRec : List Nat :=
  [0x90, 0x0B, 0x00, 0x00, 0x01, 0x04, 0x6D, 0x61, 0x69, 0x6E, 0x00, 0x00, 0x00, 0x00]

/-- The spec's scenario 3 ingredients: LNAMES, SEGDEF, then the PUBDEF. -/
def c6input : List Nat := lnamesRec ++ segdefRec ++ pubdefRec

/-- EXTDEF per the wire format of the spec: length-prefixed name "puts",
type index 0, zero checksum, framed. -/
def extdefRec : List Nat := [0x8C, 0x07, 0x00, 0x04, 0x70, 0x75, 0x74, 0x73, 0x00, 0x00]

/-- A FIXUPP record with one fixup subrecord `C4 01 00 06 01` and the zero
checksum byte, framed. -/
def fixuppRec : List Nat := [0x9C, 0x06, 0x00, 0xC4, 0x01, 0x00, 0x06, 0x01, 0x00]

/-- The spec's scenario 4 stream: LNAMES, SEGDEF, EXTDEF("puts"), FIXUPP,
MODEND. -/
def c7input : List Nat := lnamesRec ++ segdefRec ++ extdefRec ++ fixuppRec ++ modendRec

/-- What the code produces for `c7input`: the EXTDEF body's seven bytes are
taken as seven one-byte name indices (none of the resulting names is
"puts"), and the FIXUPP subrecord becomes a relocation with target
`Segment 6` and size 32. -/
def c7expected : OmfFile :=
  { module_name := none,
    lnames := [tTEXT, tCODE, []],
    segments := [⟨tTEXT, .Ledata 0 [],
                  .EXECUTABLE,
                  [⟨1, .Segment 6, some .Location, .Absolute, .Generic, 32, 0⟩]⟩],
    symbols := [⟨[], none, 0, true, false⟩, ⟨[], none, 0, true, false⟩,
                ⟨[], none, 0, true, false⟩, ⟨[], none, 0, true, false⟩,
                ⟨[], none, 0, true, false⟩, ⟨tTEXT, none, 0, true, false⟩,
                ⟨tTEXT, none, 0, true, false⟩],
    groups := [], comdats := [], commons := [], comments := [] }

/-- A SEGDEF whose name index 7 is not in the (empty) name table, followed by
a GRPDEF whose group-name index 5 is not in the name table. -/
def c8input : List Nat :=
  [0x98, 0x05, 0x00, 0x48, 0x00, 0x00, 0x07, 0x00] ++ [0x9A, 0x02, 0x00, 0x05, 0x00]

/-- What the code produces for `c8input`: the segment is produced with the
empty name; the group is dropped entirely. -/
def c8expected : OmfFile :=
  { initOmf with segments := [⟨[], .Ledata 0 [], .EXECUTABLE, []⟩] }

/-- A single GRPDEF record whose group-name index 5 is not in the (empty)
name table. -/
def c8grpInput : List Nat := [0x9A, 0x02, 0x00, 0x05, 0x00]

/-- A SEGDEF followed by a LIDATA record (opcode 0xA2) whose iterated block
is `[repeat 2][block count 0][1 byte: 90]` — declared (expanded) size 2. -/
def c9input : List Nat :=
  [0x98, 0x05, 0x00, 0x48, 0x00, 0x00, 0x01, 0x00] ++
  [0xA2, 0x09, 0x00, 0x00, 0x00, 0x02, 0x00, 0x00, 0x00, 0x01, 0x90, 0x00]

/-- What the code produces for `c9input`: the segment stores the LIDATA
payload unexpanded (including the trailing checksum byte). -/
def c9expected : OmfFile :=
  { initOmf with segments := [⟨[], .Lidata 0 [2, 0, 0, 0, 1, 0x90, 0], .EXECUTABLE, []⟩] }

/-! ## Claim theorems -/

/-- Claim C1.  On a 10-byte buffer whose first record header `80 FF FF`
declares length 65535, the parser does not return a `Truncated` error: the
unchecked slice `&bytes[pos+3 .. pos+3+len]` goes out of bounds and the
parse panics (there is no `Truncated` value anywhere in the OMF reader's
error repertoire). -/
theorem c1_truncated_panics : OmfFile.parse c1input = PResult.panicked := by
  rfl

/-- Claim C2.  Parsing LNAMES("_TEXT","CODE"), a 16-bit SEGDEF of length 3
with name index 1, a LEDATA record with opcode 0xA0 carrying `90 90 C3`, and
MODEND does NOT fill the segment: because `consts.rs` sets `LEXTDEF = 0xA0`
and the EXTDEF | LEXTDEF arm precedes the LEDATA arm, the LEDATA record is
consumed as external-symbol definitions.  The single segment is named
`_TEXT` with executable flags but its data stays empty (size 0, not
`90 90 C3`), and seven spurious undefined symbols appear. -/
theorem c2_ledata_misrouted :
    OmfFile.parse c2input = PResult.ok c2expected ∧
    c2expected.segments.map OmfSegment.data = [OmfSectionData.Ledata 0 []] ∧
    c2expected.symbols.length = 7 := by
  exact ⟨by rfl, by rfl, by rfl⟩

/-- Claim C3.  The framer hands the full declared record body — including
the trailing checksum byte — to the handlers.  For the LNAMES record
`96 03 00 01 41 00` (one name "A", checksum 0) the handler also parses the
checksum byte 0x00 as an empty name, so the name table ends up
`["A", ""]`, not `["A"]`. -/
theorem c3_checksum_in_body :
    OmfFile.parse c3input = PResult.ok { initOmf with lnames := [[0x41], []] } := by
  rfl

/-- Claim C4.  The SEGDEF arm reads the segment-name index as the single
byte `body[3]` even when its high bit is set: with name-index bytes
`81 02`, the code resolves index 0x81 = 129 (name `[128]` of the 129-entry
name table), whereas the OMF variable-index decoding of `81 02` consumes
two bytes and denotes index 258. -/
theorem c4_single_byte_index :
    OmfFile.parse c4input = PResult.ok c4expected ∧
    c4expected.segments.map OmfSegment.name = [[128]] ∧
    omfVarIndex [0x81, 0x02] = some (258, 2) := by
  exact ⟨by rfl, by rfl, by rfl⟩

/-- Claim C5.  MODEND does not terminate the parse: the `MODEND => {}` arm
is a no-op and the framer keeps consuming the following bytes.  For a
MODEND record followed by trailing bytes whose type byte is 0x00, parse
returns the `unknown OMF record` error instead of the module accumulated
before MODEND. -/
theorem c5_modend_not_terminator :
    OmfFile.parse c5input = PResult.error OmfParseError.unknownRecord := by
  rfl

/-- Claim C6.  The PUBDEF arm reads `[name-index:1][segment:1][offset:u16]`
per entry — no leading group/segment header, no length-prefixed name, no
type index.  On the spec's own PUBDEF wire record (group 0, segment 1, name
"main", offset 0, type 0) the entry walk goes out of phase and the read of
`body[p+3]` at the third bogus entry indexes past the body: the parse
panics instead of producing a public symbol "main". -/
theorem c6_pubdef_panics : OmfFile.parse c6input = PResult.panicked := by
  rfl

/-- Claim C7.  On scenario 2 plus EXTDEF("puts") plus a FIXUPP record: the
EXTDEF arm reads the seven body bytes as seven one-byte name indices, so no
symbol named "puts" is recorded; the FIXUPP subrecord yields a relocation
whose target is `Segment 6` (the `OmfFixupTarget` type has no `External`
constructor at all) with width 32, not a relocation targeting External(1)
with width 16. -/
theorem c7_extdef_fixupp_diverge :
    OmfFile.parse c7input = PResult.ok c7expected ∧
    c7expected.segments.map (fun s => s.fixups) =
      [[⟨1, .Segment 6, some .Location, .Absolute, .Generic, 32, 0⟩]] ∧
    (∀ s ∈ c7expected.symbols, s.name ≠ tPUTS) := by
  refine ⟨by rfl, by rfl, by decide⟩

/-- Claim C8 (amended).  An unknown name index is never fatal.  For the
records that resolve name indices with `unwrap_or("")` the entity is still
produced with an empty name — the concrete SEGDEF below, whose name index 7
has no entry, yields a segment named "" — but a GRPDEF whose group-name
index is unknown drops the whole group: `grpdefApply` leaves the state
unchanged whenever the lookup fails. -/
theorem c8_unknown_index_tolerated :
    (∀ body st, st.lnames[body.headD 0]? = none → grpdefApply body st = PResult.ok st) ∧
    OmfFile.parse c8input = PResult.ok c8expected ∧
    c8expected.segments.map OmfSegment.name = [[]] ∧
    c8expected.groups = [] := by
  refine ⟨?_, by rfl, by rfl, by rfl⟩
  intro body st h
  cases body with
  | nil => rfl
  | cons b bs =>
    simp only [grpdefApply, List.isEmpty_cons, List.headD_cons] at h ⊢
    simp only [h, if_neg]
    rfl

/-- Witness for claim C8's theorem at a concrete input: the GRPDEF body
`05 00` with an empty name table leaves the state unchanged. -/
theorem c8_witness :
    grpdefApply [0x05, 0x00] initOmf = PResult.ok initOmf :=
  c8_unknown_index_tolerated.1 [0x05, 0x00] initOmf (by rfl)

/-- Claim C8, counterexample to the claim as stated: the GRPDEF record
`9A 02 00 05 00` references the unknown name index 5; parsing does not
fail, but no group entity is produced at all — `groups` is empty, not a
group with an empty name. -/
theorem c8_group_dropped :
    OmfFile.parse c8grpInput = PResult.ok initOmf ∧ initOmf.groups = [] := by
  exact ⟨by rfl, by rfl⟩

/-- Claim C9 (amended).  When LIDATA data is stored unexpanded,
`OmfSection::size` returns 0 ("unknown until expanded") for every such
section — not the pre-expansion declared size.  The concrete stream stores
the iterated block `[repeat 2][count 0][1 byte]` unexpanded on the
segment. -/
theorem c9_lidata_size_zero :
    (∀ (i : Nat) (n : List Nat) (off : Nat) (raw : List Nat)
       (fl : SectionFlags) (rl : List OmfRelocation),
       OmfSection.size ⟨i, n, OmfSectionData.Lidata off raw, fl, rl⟩ = 0) ∧
    OmfFile.parse c9input = PResult.ok c9expected := by
  exact ⟨fun _ _ _ _ _ _ => rfl, by rfl⟩

/-- Claim C9, counterexample to the claim as stated: the section produced
for the LIDATA record reports size 0 although the pre-expansion declared
size of its iterated data is 2. -/
theorem c9_lidata_size_zero_cex :
    OmfFile.parse c9input = PResult.ok c9expected ∧
    (sectionsOf c9expected).map OmfSection.size = [0] ∧
    lidataDeclaredSize [2, 0, 0, 0, 1, 0x90, 0] = some 2 := by
  exact ⟨by rfl, by rfl, by rfl⟩

/-- Claim C10.  Fixup subrecords decoded while the segment list is still
empty are silently discarded: whenever the FIXUPP body walk succeeds with
no declared segment, the resulting segment list is still empty, so no
relocation is recorded anywhere and no error is raised. -/
theorem c10_fixupp_no_segment_discard (body : List Nat)
    (segs : List OmfSegment) (h : fixuppApply body [] = PResult.ok segs) :
    segs = [] := by
  unfold fixuppApply at h
  cases hfl : fixuppLoop (body.length + 1) body 0 [] with
  | ok rs =>
    rw [hfl] at h
    simp only [appendFixupsToLast] at h
    cases h
    rfl
  | error e => rw [hfl] at h; cases h
  | panicked => rw [hfl] at h; cases h

/-- Witness for claim C10's theorem: a FIXUPP body with one well-formed
fixup subrecord decodes successfully against an empty segment list and
leaves it empty. -/
theorem c10_fixupp_witness :
    fixuppApply [0xC4, 0x01, 0x00, 0x06, 0x01, 0x00] [] = PResult.ok [] ∧
    ([] : List OmfSegment) = [] :=
  ⟨by rfl, c10_fixupp_no_segment_discard [0xC4, 0x01, 0x00, 0x06, 0x01, 0x00] [] (by rfl)⟩
